import Mathlib

/-!
Shallow embedding of the FisherMind-AI multi-factor scoring engine
(src/agents/analysis.py and the aggregation part of
src/agents/agent.py::phil_fisher_agent_core).

Modelling conventions:
* Python floats are modelled as exact rationals (ℚ).  Every numeric literal of
  the source (0.80, 1e-9, 0.30, ...) is carried over as the rational it denotes.
* A record ("financial line item", "insider trade", "news item") is either
  Python `None`, a dict (association list whose stored values may themselves be
  null), or an attribute-style object (a field-name-to-optional-value map),
  mirroring the three cases of the accessor `_v` in analysis.py.
* Python truthiness tests on floats (`if oldest_rev and oldest_rev > 0`) are
  modelled by the equivalent arithmetic condition: for `x and x > 0` this is
  `0 < x`, and `x if x else eps` is `if x = 0 then eps else x`.
* f-string interpolation inside detail messages is elided: the detail strings
  keep the fixed message text of the source without the interpolated numerals.
* `statistics.pstdev xs < c` (c ≥ 0) is modelled as `pvariance xs < c^2`,
  which is equivalent since sqrt is monotone; this keeps the model in ℚ.
-/

namespace FisherMind

/-- A heterogeneous record as consumed by the accessor `_v` of analysis.py:
Python `None`, a dict, or an attribute-carrying object. A dict may store an
explicit null value for a present key (`some none`). -/
inductive Record (α : Type) where
  | null : Record α
  | mapLike (fields : List (String × Option α)) : Record α
  | attrLike (fields : String → Option α) : Record α

/-- Accessor `_v(item, name)` of analysis.py lines 8-13: `None` items give
`None`, dicts use `.get` (a stored null and an absent key both give `None`),
objects use `getattr(item, name, None)`. -/
def _v {α : Type} : Record α → String → Option α
  | .null, _ => none
  | .mapLike m, name => (m.lookup name).join
  | .attrLike f, name => f name

/-- Financial line items and insider trades carry numeric fields. -/
abbrev Item := Record ℚ

/-- News items carry a string `title` field. -/
abbrev NewsItem := Record String

/-- The `{"score": ..., "details": ...}` dict every analyzer returns. -/
structure AnalysisResult where
  score : ℚ
  details : String
deriving DecidableEq, Repr

/-- Python's two-argument `min(a, b)`: returns `a` when `a ≤ b`, else `b`.
Spelled out as an `if` so that the kernel can evaluate it on concrete
rationals; `pymin_eq_min` below identifies it with Mathlib's `min`. -/
def pymin (a b : ℚ) : ℚ := if a ≤ b then a else b

/-- Python's `abs` on a float, spelled out as an `if` so that the kernel can
evaluate it; `pyabs_eq_abs` below identifies it with Mathlib's `|·|`. -/
def pyabs (x : ℚ) : ℚ := if x < 0 then -x else x

/-- The list comprehension pattern
`[_v(fi, name) for fi in items if _v(fi, name) is not None]`. -/
def fieldValues (name : String) (items : List Item) : List ℚ :=
  items.filterMap (fun fi => _v fi name)

/-! ### Growth & quality analyzer (analysis.py lines 16-89) -/

/-- Revenue-growth sub-check, analysis.py lines 26-45.  Takes the filtered
`revenues` list; returns the points added to `raw_score` and the detail line.
`revenues[0]` is the head, `revenues[-1]` the last element; the Python guard
`if oldest_rev and oldest_rev > 0` is equivalent to `0 < oldest_rev`. -/
def revenueGrowthBranch : List ℚ → ℕ × String
  | latest_rev :: r :: rs =>
      let oldest_rev := (r :: rs).getLast (by simp)
      if 0 < oldest_rev then
        let rev_growth := (latest_rev - oldest_rev) / pyabs oldest_rev
        if rev_growth > 4/5 then            -- 0.80
          (3, "Very strong multi-period revenue growth")
        else if rev_growth > 2/5 then       -- 0.40
          (2, "Moderate multi-period revenue growth")
        else if rev_growth > 1/10 then      -- 0.10
          (1, "Slight multi-period revenue growth")
        else
          (0, "Minimal or negative multi-period revenue growth")
      else
        (0, "Oldest revenue is zero/negative; cannot compute growth.")
  | _ => (0, "Not enough revenue data points for growth calculation.")

/-- EPS-growth sub-check, analysis.py lines 47-67: same shape as revenue
growth, but the guard is `abs(oldest_eps) > 1e-9` (the preceding
`oldest_eps is not None` is vacuous after filtering). -/
def epsGrowthBranch : List ℚ → ℕ × String
  | latest_eps :: e :: es =>
      let oldest_eps := (e :: es).getLast (by simp)
      if pyabs oldest_eps > 1/1000000000 then  -- 1e-9
        let eps_growth := (latest_eps - oldest_eps) / pyabs oldest_eps
        if eps_growth > 4/5 then            -- 0.80
          (3, "Very strong multi-period EPS growth")
        else if eps_growth > 2/5 then       -- 0.40
          (2, "Moderate multi-period EPS growth")
        else if eps_growth > 1/10 then      -- 0.10
          (1, "Slight multi-period EPS growth")
        else
          (0, "Minimal or negative multi-period EPS growth")
      else
        (0, "Oldest EPS near zero; skipping EPS growth calculation.")
  | _ => (0, "Not enough EPS data points for growth calculation.")

/-- R&D-intensity sub-check, analysis.py lines 69-86.
`if rnd_values and revenues and len(rnd_values) == len(revenues)` needs both
lists nonempty with equal length; `revenues[0] if revenues[0] else 1e-9`
substitutes the epsilon when the latest revenue is zero. -/
def rndBranch : List ℚ → List ℚ → ℕ × String
  | recent_rnd :: rnds, rev0 :: revs =>
      if (recent_rnd :: rnds).length = (rev0 :: revs).length then
        let recent_rev := if rev0 = 0 then 1/1000000000 else rev0  -- 1e-9
        let rnd_frac := recent_rnd / recent_rev
        if 3/100 ≤ rnd_frac ∧ rnd_frac ≤ 3/20 then  -- 0.03 ... 0.15
          (3, "R&D ratio indicates significant investment in future growth")
        else if rnd_frac > 3/20 then        -- 0.15
          (2, "R&D ratio is very high (could be good if well-managed)")
        else if rnd_frac > 0 then           -- 0.0
          (1, "R&D ratio is somewhat low but still positive")
        else
          (0, "No meaningful R&D expense ratio")
      else
        (0, "Insufficient R&D data to evaluate")
  | _, _ => (0, "Insufficient R&D data to evaluate")

/-- Growth & quality analyzer, analysis.py lines 16-89.  The guard
`if not financial_line_items or len(financial_line_items) < 2` is equivalent
to `length < 2`; the three sub-checks accumulate `raw_score` and append their
detail lines in order; final score is `min(10, raw_score / 9 * 10)`. -/
def analyze_fisher_growth_quality (financial_line_items : List Item) : AnalysisResult :=
  if financial_line_items.length < 2 then
    { score := 0, details := "Insufficient financial data for growth/quality analysis" }
  else
    let revenues := fieldValues "revenue" financial_line_items
    let eps_values := fieldValues "earnings_per_share" financial_line_items
    let rnd_values := fieldValues "research_and_development" financial_line_items
    let b1 := revenueGrowthBranch revenues
    let b2 := epsGrowthBranch eps_values
    let b3 := rndBranch rnd_values revenues
    let raw_score : ℕ := b1.1 + b2.1 + b3.1
    { score := pymin 10 ((raw_score : ℚ) / 9 * 10),
      details := String.intercalate "; " [b1.2, b2.2, b3.2] }

/-! ### Margin stability analyzer (analysis.py lines 92-144) -/

/-- Mean of a list of rationals (`sum / len`), used by `pvariance`. -/
def listMean (xs : List ℚ) : ℚ := xs.sum / xs.length

/-- Population variance, `statistics.pstdev(xs) ** 2`.  The source compares
`pstdev < c`; since `pstdev = sqrt pvariance` and sqrt is monotone on
nonnegatives, `pstdev < c` (for `c ≥ 0`) is the same as `pvariance < c^2`,
which keeps the model inside ℚ. -/
def pvariance (xs : List ℚ) : ℚ :=
  (xs.map (fun x => (x - listMean xs) ^ 2)).sum / xs.length

/-- Operating-margin trend sub-check, analysis.py lines 102-114.  The chained
`newest_op_margin >= oldest_op_margin > 0` is the conjunction of the two
comparisons; `elif newest_op_margin and newest_op_margin > 0` is `0 < newest`. -/
def opMarginTrendBranch : List ℚ → ℕ × String
  | newest_op_margin :: m :: ms =>
      let oldest_op_margin := (m :: ms).getLast (by simp)
      if newest_op_margin ≥ oldest_op_margin ∧ oldest_op_margin > 0 then
        (2, "Operating margin stable or improving")
      else if newest_op_margin > 0 then
        (1, "Operating margin positive but slightly declined")
      else
        (0, "Operating margin may be negative or uncertain")
  | _ => (0, "Not enough operating margin data points")

/-- Gross-margin level sub-check, analysis.py lines 116-128. -/
def grossMarginBranch : List ℚ → ℕ × String
  | recent_gm :: _ =>
      if recent_gm > 1/2 then             -- 0.5
        (2, "Strong gross margin")
      else if recent_gm > 3/10 then       -- 0.3
        (1, "Moderate gross margin")
      else
        (0, "Low gross margin")
  | [] => (0, "No gross margin data available")

/-- Operating-margin volatility sub-check, analysis.py lines 130-141.  The
`[m for m in op_margins if m is not None]` comprehension is the identity (the
list was already filtered); `stdev < 0.02` and `stdev < 0.05` are modelled as
`pvariance < (2/100)^2` and `pvariance < (5/100)^2`. -/
def volatilityBranch (op_margins : List ℚ) : ℕ × String :=
  if 3 ≤ op_margins.length then
    if pvariance op_margins < (2/100) ^ 2 then       -- stdev < 0.02
      (2, "Operating margin extremely stable over multiple years")
    else if pvariance op_margins < (5/100) ^ 2 then  -- stdev < 0.05
      (1, "Operating margin reasonably stable")
    else
      (0, "Operating margin volatility is high")
  else
    (0, "Not enough margin data points for volatility check")

/-- Margin stability analyzer, analysis.py lines 92-144. -/
def analyze_margins_stability (financial_line_items : List Item) : AnalysisResult :=
  if financial_line_items.length < 2 then
    { score := 0, details := "Insufficient data for margin stability analysis" }
  else
    let op_margins := fieldValues "operating_margin" financial_line_items
    let gm_values := fieldValues "gross_margin" financial_line_items
    let b1 := opMarginTrendBranch op_margins
    let b2 := grossMarginBranch gm_values
    let b3 := volatilityBranch op_margins
    let raw_score : ℕ := b1.1 + b2.1 + b3.1
    { score := pymin 10 ((raw_score : ℚ) / 6 * 10),
      details := String.intercalate "; " [b1.2, b2.2, b3.2] }

/-! ### Management efficiency & leverage analyzer (analysis.py lines 147-208) -/

/-- ROE sub-check, analysis.py lines 156-177.  Requires nonempty, equal-length
filtered `net_income` and `shareholders_equity` lists; the Python
`eq_values[0] if eq_values[0] else 1e-9` is the zero-epsilon substitution and
`if recent_ni and recent_ni > 0` is `0 < recent_ni`. -/
def roeBranch : List ℚ → List ℚ → ℕ × String
  | recent_ni :: nis, eq0 :: eqs =>
      if (recent_ni :: nis).length = (eq0 :: eqs).length then
        let recent_eq := if eq0 = 0 then 1/1000000000 else eq0  -- 1e-9
        if 0 < recent_ni then
          let roe := recent_ni / recent_eq
          if roe > 1/5 then               -- 0.2
            (3, "High ROE")
          else if roe > 1/10 then         -- 0.1
            (2, "Moderate ROE")
          else if roe > 0 then
            (1, "Positive but low ROE")
          else
            (0, "ROE is near zero or negative")
        else
          (0, "Recent net income is zero or negative, hurting ROE")
      else
        (0, "Insufficient data for ROE calculation")
  | _, _ => (0, "Insufficient data for ROE calculation")

/-- Debt-to-equity sub-check, analysis.py lines 179-193. -/
def dteBranch : List ℚ → List ℚ → ℕ × String
  | recent_debt :: debts, eq0 :: eqs =>
      if (recent_debt :: debts).length = (eq0 :: eqs).length then
        let recent_equity := if eq0 = 0 then 1/1000000000 else eq0  -- 1e-9
        let dte := recent_debt / recent_equity
        if dte < 3/10 then                -- 0.3
          (2, "Low debt-to-equity")
        else if dte < 1 then              -- 1.0
          (1, "Manageable debt-to-equity")
        else
          (0, "High debt-to-equity")
      else
        (0, "Insufficient data for debt/equity analysis")
  | _, _ => (0, "Insufficient data for debt/equity analysis")

/-- FCF-consistency sub-check, analysis.py lines 195-205.  The comprehension
`sum(1 for x in fcf_values if x and x > 0)` counts strictly positive values
(`x and x > 0` is `0 < x`). -/
def fcfConsistencyBranch (fcf_values : List ℚ) : ℕ × String :=
  if 2 ≤ fcf_values.length then
    let positive_fcf_count := fcf_values.countP (fun x => decide (0 < x))
    if (positive_fcf_count : ℚ) / (fcf_values.length : ℚ) > 4/5 then  -- 0.8
      (1, "Majority of periods have positive FCF")
    else
      (0, "Free cash flow is inconsistent or often negative")
  else
    (0, "Insufficient or no FCF data to check consistency")

/-- Management efficiency & leverage analyzer, analysis.py lines 147-208.
The guard is only `if not financial_line_items` (empty list); a single item is
accepted. -/
def analyze_management_efficiency_leverage (financial_line_items : List Item) : AnalysisResult :=
  if financial_line_items.isEmpty then
    { score := 0, details := "No financial data for management efficiency analysis" }
  else
    let ni_values := fieldValues "net_income" financial_line_items
    let eq_values := fieldValues "shareholders_equity" financial_line_items
    let debt_values := fieldValues "total_debt" financial_line_items
    let fcf_values := fieldValues "free_cash_flow" financial_line_items
    let b1 := roeBranch ni_values eq_values
    let b2 := dteBranch debt_values eq_values
    let b3 := fcfConsistencyBranch fcf_values
    let raw_score : ℕ := b1.1 + b2.1 + b3.1
    { score := pymin 10 ((raw_score : ℚ) / 6 * 10),
      details := String.intercalate "; " [b1.2, b2.2, b3.2] }

/-! ### Valuation analyzer (analysis.py lines 211-252) -/

/-- P/E sub-check, analysis.py lines 223-235.
`recent_net_income = net_incomes[0] if net_incomes else None` followed by
`if recent_net_income and recent_net_income > 0` computes P/E exactly when the
head of the filtered list exists and is strictly positive. -/
def peBranch (market_cap : ℚ) : List ℚ → ℕ × String
  | recent_net_income :: _ =>
      if 0 < recent_net_income then
        let pe := market_cap / recent_net_income
        if pe < 20 then
          (2, "Reasonably attractive P/E")
        else if pe < 30 then
          (1, "Somewhat high but possibly justifiable P/E")
        else
          (0, "Very high P/E")
      else
        (0, "No positive net income for P/E calculation")
  | [] => (0, "No positive net income for P/E calculation")

/-- P/FCF sub-check, analysis.py lines 237-249: same shape as the P/E check
with `free_cash_flow` in place of `net_income`. -/
def pfcfBranch (market_cap : ℚ) : List ℚ → ℕ × String
  | recent_fcf :: _ =>
      if 0 < recent_fcf then
        let pfcf := market_cap / recent_fcf
        if pfcf < 20 then
          (2, "Reasonable P/FCF")
        else if pfcf < 30 then
          (1, "Somewhat high P/FCF")
        else
          (0, "Excessively high P/FCF")
      else
        (0, "No positive free cash flow for P/FCF calculation")
  | [] => (0, "No positive free cash flow for P/FCF calculation")

/-- Valuation analyzer, analysis.py lines 211-252.  The guard
`if not financial_line_items or market_cap is None` fires on an empty item
list or a null market cap. -/
def analyze_fisher_valuation (financial_line_items : List Item)
    (market_cap : Option ℚ) : AnalysisResult :=
  match market_cap with
  | none => { score := 0, details := "Insufficient data to perform valuation" }
  | some mcap =>
    if financial_line_items.isEmpty then
      { score := 0, details := "Insufficient data to perform valuation" }
    else
      let net_incomes := fieldValues "net_income" financial_line_items
      let fcf_values := fieldValues "free_cash_flow" financial_line_items
      let b1 := peBranch mcap net_incomes
      let b2 := pfcfBranch mcap fcf_values
      let raw_score : ℕ := b1.1 + b2.1
      { score := pymin 10 ((raw_score : ℚ) / 4 * 10),
        details := String.intercalate "; " [b1.2, b2.2] }

/-! ### Insider activity analyzer (analysis.py lines 255-287) -/

/-- Predicate for a buy: `shares is not None and shares > 0`. -/
def isBuy (trade : Item) : Bool :=
  match _v trade "transaction_shares" with
  | some shares => decide (0 < shares)
  | none => false

/-- Predicate for a sell: `shares is not None and shares < 0`. -/
def isSell (trade : Item) : Bool :=
  match _v trade "transaction_shares" with
  | some shares => decide (shares < 0)
  | none => false

/-- Insider activity analyzer, analysis.py lines 255-287.  The for-loop over
trades counts buys (positive `transaction_shares`) and sells (negative);
zero or null shares are counted in neither. -/
def analyze_insider_activity (insider_trades : List Item) : AnalysisResult :=
  if insider_trades.isEmpty then
    { score := 5, details := "No insider trades data; defaulting to neutral" }
  else
    let buys := insider_trades.countP isBuy
    let sells := insider_trades.countP isSell
    let total := buys + sells
    if total = 0 then
      { score := 5, details := "No buy/sell transactions found; neutral" }
    else
      let buy_frac := (buys : ℚ) / (total : ℚ)    -- buy_ratio in the source
      if buy_frac > 7/10 then             -- 0.7
        { score := 8, details := "Heavy insider buying" }
      else if buy_frac > 2/5 then         -- 0.4
        { score := 6, details := "Moderate insider buying" }
      else
        { score := 4, details := "Mostly insider selling" }

/-! ### Sentiment analyzer (analysis.py lines 290-313) -/

/-- Does `needle` occur at the start of `haystack`? (over character lists) -/
def listStartsWith : List Char → List Char → Bool
  | [], _ => true
  | _ :: _, [] => false
  | a :: as, b :: bs => a = b && listStartsWith as bs

/-- Does `needle` occur as a contiguous substring of `haystack`?  This models
Python's `word in title_lower` substring test. -/
def listHasSub (needle : List Char) : List Char → Bool
  | [] => needle.isEmpty
  | b :: bs => listStartsWith needle (b :: bs) || listHasSub needle bs

/-- Python's `str.lower()` on a headline, modelled character by character
(this is `String.toLower`, spelled out as a list map so that the kernel can
evaluate it on concrete strings). -/
def strLower (s : String) : String := String.mk (s.data.map Char.toLower)

/-- The fixed keyword list of analysis.py line 294. -/
def negative_keywords : List String :=
  ["lawsuit", "fraud", "negative", "downturn", "decline", "investigation", "recall"]

/-- Is a news item's headline negative?  `title = _v(news, "title") or ""`
falls back to the empty string for a null title (the `or` is the identity on
any present string except `""`, for which it also yields `""`), then the
lowercased title is tested for each keyword as a substring. -/
def isNegativeHeadline (news : NewsItem) : Bool :=
  let title := (_v news "title").getD ""
  let title_lower := strLower title
  negative_keywords.any (fun word => listHasSub word.data title_lower.data)

/-- Sentiment analyzer, analysis.py lines 290-313. -/
def analyze_sentiment (news_items : List NewsItem) : AnalysisResult :=
  if news_items.isEmpty then
    { score := 5, details := "No news data; defaulting to neutral sentiment" }
  else
    let negative_count := news_items.countP isNegativeHeadline
    if (negative_count : ℚ) > (news_items.length : ℚ) * (3/10) then  -- 0.3
      { score := 3, details := "High proportion of negative headlines" }
    else if 0 < negative_count then
      { score := 6, details := "Some negative headlines" }
    else
      { score := 8, details := "Mostly positive/neutral headlines" }

/-! ### Aggregator (agent.py lines 112-145) -/

/-- Signal classification, agent.py lines 128-133: thresholds 7.5 and 4.5 are
inclusive (`>=` / `<=`) and applied to the weighted composite. -/
def signal_of (total_score : ℚ) : String :=
  if total_score ≥ 15/2 then "bullish"       -- 7.5
  else if total_score ≤ 9/2 then "bearish"   -- 4.5
  else "neutral"

/-- The per-ticker entry written into `analysis_data[ticker]`,
agent.py lines 135-145. -/
structure TickerAnalysis where
  signal : String
  score : ℚ
  max_score : ℚ
  growth_quality : AnalysisResult
  margins_stability : AnalysisResult
  management_efficiency : AnalysisResult
  valuation_analysis : AnalysisResult
  insider_activity : AnalysisResult
  sentiment_analysis : AnalysisResult
deriving DecidableEq, Repr

/-- The analysis core of `phil_fisher_agent_core` for one ticker,
agent.py lines 112-145: run the six analyzers on the fetched records, weight
the scores (0.30/0.25/0.20/0.15/0.05/0.05, written as exact rationals), and
classify the signal. -/
def phil_fisher_ticker_analysis (pli : List Item) (mcap : Option ℚ)
    (insiders : List Item) (news : List NewsItem) : TickerAnalysis :=
  let growth_quality := analyze_fisher_growth_quality pli
  let margins_stability := analyze_margins_stability pli
  let mgmt_efficiency := analyze_management_efficiency_leverage pli
  let fisher_valuation := analyze_fisher_valuation pli mcap
  let insider_activity := analyze_insider_activity insiders
  let sentiment_analysis := analyze_sentiment news
  let total_score :=
    growth_quality.score * (3/10)         -- 0.30
    + margins_stability.score * (1/4)     -- 0.25
    + mgmt_efficiency.score * (1/5)       -- 0.20
    + fisher_valuation.score * (3/20)     -- 0.15
    + insider_activity.score * (1/20)     -- 0.05
    + sentiment_analysis.score * (1/20)   -- 0.05
  { signal := signal_of total_score
    score := total_score
    max_score := 10
    growth_quality := growth_quality
    margins_stability := margins_stability
    management_efficiency := mgmt_efficiency
    valuation_analysis := fisher_valuation
    insider_activity := insider_activity
    sentiment_analysis := sentiment_analysis }

/-! ### Concrete inputs used by boundary tests and counterexamples -/

/-- The numeric field names the analyzers ever read from a line item. -/
def fisherFieldNames : List String :=
  ["revenue", "earnings_per_share", "research_and_development", "operating_margin",
   "gross_margin", "net_income", "shareholders_equity", "total_debt", "free_cash_flow"]

/-- An item carries a non-null value "anywhere" when at least one of the
fields the engine reads is present and non-null. -/
def hasAnyValue (r : Item) : Bool :=
  fisherFieldNames.any (fun n => (_v r n).isSome)

/-- Newest-first revenue sequence [180, 100]: multi-period growth exactly 0.80. -/
def demoRev : List Item :=
  [Record.mapLike [("revenue", some (180:ℚ))],
   Record.mapLike [("revenue", some (100:ℚ))]]

/-- Two line items of which only the first carries any non-null value
(revenue 100 and R&D 10); the second is a null record. -/
def cexShortData : List Item :=
  [Record.mapLike [("revenue", some (100:ℚ)), ("research_and_development", some (10:ℚ))],
   Record.null]

/-- Insider trades [+10, +10, +10, -1]: three buys and one sell. -/
def demoTrades : List Item :=
  [Record.mapLike [("transaction_shares", some (10:ℚ))],
   Record.mapLike [("transaction_shares", some (10:ℚ))],
   Record.mapLike [("transaction_shares", some (10:ℚ))],
   Record.mapLike [("transaction_shares", some (-1:ℚ))]]

/-- A single line item with net_income 100 and shareholders_equity 500:
ROE exactly 0.2. -/
def demoMgmt : List Item :=
  [Record.mapLike [("net_income", some (100:ℚ)), ("shareholders_equity", some (500:ℚ))]]

/-! ### Basic lemmas about the Python-style helpers -/

/-- The `if`-spelling `pymin` agrees with Mathlib's `min`. -/
theorem pymin_eq_min (a b : ℚ) : pymin a b = min a b := by
  rw [pymin, min_def]

/-- The `if`-spelling `pyabs` agrees with Mathlib's `|·|`. -/
theorem pyabs_eq_abs (x : ℚ) : pyabs x = |x| := by
  rw [pyabs]
  split
  · rw [abs_of_neg (by assumption)]
  · rw [abs_of_nonneg (by linarith [not_lt.mp (by assumption)])]

/-- A capped nonnegative score `min(10, x)` lies in `[0, 10]`. -/
theorem pymin_ten_mem (x : ℚ) (hx : 0 ≤ x) : pymin 10 x ∈ Set.Icc (0:ℚ) 10 := by
  rw [pymin]
  split
  · exact ⟨by norm_num, by norm_num⟩
  · exact ⟨hx, by linarith [not_le.mp (by assumption)]⟩

/-! ### Range lemmas for the six analyzers -/

theorem growth_score_mem (items : List Item) :
    (analyze_fisher_growth_quality items).score ∈ Set.Icc (0:ℚ) 10 := by
  rw [analyze_fisher_growth_quality]
  split
  · exact ⟨le_refl 0, by norm_num⟩
  · exact pymin_ten_mem _ (by positivity)

theorem margins_score_mem (items : List Item) :
    (analyze_margins_stability items).score ∈ Set.Icc (0:ℚ) 10 := by
  rw [analyze_margins_stability]
  split
  · exact ⟨le_refl 0, by norm_num⟩
  · exact pymin_ten_mem _ (by positivity)

theorem mgmt_score_mem (items : List Item) :
    (analyze_management_efficiency_leverage items).score ∈ Set.Icc (0:ℚ) 10 := by
  rw [analyze_management_efficiency_leverage]
  split
  · exact ⟨le_refl 0, by norm_num⟩
  · exact pymin_ten_mem _ (by positivity)

theorem valuation_score_mem (items : List Item) (mcap : Option ℚ) :
    (analyze_fisher_valuation items mcap).score ∈ Set.Icc (0:ℚ) 10 := by
  rcases mcap with _ | m
  · have h0 : (analyze_fisher_valuation items none).score = 0 := rfl
    rw [Set.mem_Icc, h0]
    norm_num
  · rw [analyze_fisher_valuation]
    split
    · exact ⟨le_refl 0, by norm_num⟩
    · exact pymin_ten_mem _ (by positivity)

/-- The insider analyzer only ever returns the scores 4, 5, 6 and 8. -/
theorem insider_score_cases (trades : List Item) :
    (analyze_insider_activity trades).score = 4 ∨ (analyze_insider_activity trades).score = 5 ∨
    (analyze_insider_activity trades).score = 6 ∨ (analyze_insider_activity trades).score = 8 := by
  simp only [analyze_insider_activity]
  split_ifs <;> norm_num

/-- The sentiment analyzer only ever returns the scores 3, 5, 6 and 8. -/
theorem sentiment_score_cases (news : List NewsItem) :
    (analyze_sentiment news).score = 3 ∨ (analyze_sentiment news).score = 5 ∨
    (analyze_sentiment news).score = 6 ∨ (analyze_sentiment news).score = 8 := by
  simp only [analyze_sentiment]
  split_ifs <;> norm_num

theorem insider_score_mem (trades : List Item) :
    (analyze_insider_activity trades).score ∈ Set.Icc (0:ℚ) 10 := by
  rcases insider_score_cases trades with h | h | h | h <;> rw [h] <;>
    exact ⟨by norm_num, by norm_num⟩

theorem sentiment_score_mem (news : List NewsItem) :
    (analyze_sentiment news).score ∈ Set.Icc (0:ℚ) 10 := by
  rcases sentiment_score_cases news with h | h | h | h <;> rw [h] <;>
    exact ⟨by norm_num, by norm_num⟩

/-! ### Projection lemmas for the aggregator -/

/-- The composite score is by construction the weighted sum of the six
category scores. -/
theorem phil_fisher_score_eq (pli : List Item) (mcap : Option ℚ)
    (insiders : List Item) (news : List NewsItem) :
    (phil_fisher_ticker_analysis pli mcap insiders news).score =
      (analyze_fisher_growth_quality pli).score * (3/10)
      + (analyze_margins_stability pli).score * (1/4)
      + (analyze_management_efficiency_leverage pli).score * (1/5)
      + (analyze_fisher_valuation pli mcap).score * (3/20)
      + (analyze_insider_activity insiders).score * (1/20)
      + (analyze_sentiment news).score * (1/20) := rfl

/-- The emitted signal is by construction the classification of the
composite score. -/
theorem phil_fisher_signal_eq (pli : List Item) (mcap : Option ℚ)
    (insiders : List Item) (news : List NewsItem) :
    (phil_fisher_ticker_analysis pli mcap insiders news).signal =
      signal_of (phil_fisher_ticker_analysis pli mcap insiders news).score := rfl

/-! ### Claim theorems -/

/-- C1: for every set of six category results, the aggregator's composite
score equals growth_quality*0.30 + margins_stability*0.25 +
management_efficiency*0.20 + valuation*0.15 + insider_activity*0.05 +
sentiment*0.05, with the fixed weights summing to 1.0; the equality is exact
in ℚ, hence within any floating-point tolerance. -/
theorem C1_composite_is_weighted_sum (pli : List Item) (mcap : Option ℚ)
    (insiders : List Item) (news : List NewsItem) :
    (phil_fisher_ticker_analysis pli mcap insiders news).score =
      (analyze_fisher_growth_quality pli).score * (0.30 : ℚ)
      + (analyze_margins_stability pli).score * (0.25 : ℚ)
      + (analyze_management_efficiency_leverage pli).score * (0.20 : ℚ)
      + (analyze_fisher_valuation pli mcap).score * (0.15 : ℚ)
      + (analyze_insider_activity insiders).score * (0.05 : ℚ)
      + (analyze_sentiment news).score * (0.05 : ℚ)
    ∧ (0.30 : ℚ) + 0.25 + 0.20 + 0.15 + 0.05 + 0.05 = 1 := by
  constructor
  · rw [phil_fisher_score_eq]
    norm_num
  · norm_num

/-- C2: the signal is a pure function of the composite with inclusive
boundaries: composite ≥ 7.5 gives "bullish", composite ≤ 4.5 gives "bearish",
anything strictly between gives "neutral"; exactly 7.5 is bullish and exactly
4.5 is bearish; and the aggregator applies `signal_of` to the weighted
composite, never to the pre-weighted category scores. -/
theorem C2_signal_thresholds (c : ℚ) :
    ((7.5 : ℚ) ≤ c → signal_of c = "bullish")
    ∧ (c ≤ (4.5 : ℚ) → signal_of c = "bearish")
    ∧ ((4.5 : ℚ) < c → c < (7.5 : ℚ) → signal_of c = "neutral")
    ∧ signal_of (7.5 : ℚ) = "bullish"
    ∧ signal_of (4.5 : ℚ) = "bearish"
    ∧ signal_of (6 : ℚ) = "neutral"
    ∧ ∀ (pli : List Item) (mcap : Option ℚ) (insiders : List Item) (news : List NewsItem),
        (phil_fisher_ticker_analysis pli mcap insiders news).signal =
          signal_of ((analyze_fisher_growth_quality pli).score * (3/10)
            + (analyze_margins_stability pli).score * (1/4)
            + (analyze_management_efficiency_leverage pli).score * (1/5)
            + (analyze_fisher_valuation pli mcap).score * (3/20)
            + (analyze_insider_activity insiders).score * (1/20)
            + (analyze_sentiment news).score * (1/20)) := by
  refine ⟨?_, ?_, ?_, ?_, ?_, ?_, ?_⟩
  · intro h
    rw [signal_of, if_pos (by linarith)]
  · intro h
    rw [signal_of]
    rw [if_neg (by push_neg; linarith), if_pos (by linarith)]
  · intro h1 h2
    rw [signal_of]
    rw [if_neg (by push_neg; linarith), if_neg (by push_neg; linarith)]
  · rw [signal_of, if_pos (by norm_num)]
  · rw [signal_of, if_neg (by norm_num), if_pos (by norm_num)]
  · rw [signal_of, if_neg (by norm_num), if_neg (by norm_num)]
  · intro pli mcap insiders news
    rw [phil_fisher_signal_eq, phil_fisher_score_eq]

/-- Witness for C2 at concrete composites 8, 4 and 6. -/
theorem C2_signal_thresholds_witness :
    signal_of 8 = "bullish" ∧ signal_of 4 = "bearish" ∧ signal_of 6 = "neutral" :=
  ⟨(C2_signal_thresholds 8).1 (by norm_num),
   (C2_signal_thresholds 4).2.1 (by norm_num),
   (C2_signal_thresholds 6).2.2.1 (by norm_num) (by norm_num)⟩

/-- C3: every category analyzer returns a score in [0, 10], and the composite
score lies in [0, 10], for all inputs. -/
theorem C3_scores_in_range (pli : List Item) (mcap : Option ℚ)
    (insiders : List Item) (news : List NewsItem) :
    (analyze_fisher_growth_quality pli).score ∈ Set.Icc (0:ℚ) 10
    ∧ (analyze_margins_stability pli).score ∈ Set.Icc (0:ℚ) 10
    ∧ (analyze_management_efficiency_leverage pli).score ∈ Set.Icc (0:ℚ) 10
    ∧ (analyze_fisher_valuation pli mcap).score ∈ Set.Icc (0:ℚ) 10
    ∧ (analyze_insider_activity insiders).score ∈ Set.Icc (0:ℚ) 10
    ∧ (analyze_sentiment news).score ∈ Set.Icc (0:ℚ) 10
    ∧ (phil_fisher_ticker_analysis pli mcap insiders news).score ∈ Set.Icc (0:ℚ) 10 := by
  have hg := growth_score_mem pli
  have hm := margins_score_mem pli
  have he := mgmt_score_mem pli
  have hv := valuation_score_mem pli mcap
  have hi := insider_score_mem insiders
  have hs := sentiment_score_mem news
  refine ⟨hg, hm, he, hv, hi, hs, ?_⟩
  rw [Set.mem_Icc] at hg hm he hv hi hs ⊢
  rw [phil_fisher_score_eq]
  obtain ⟨hg0, hg1⟩ := hg
  obtain ⟨hm0, hm1⟩ := hm
  obtain ⟨he0, he1⟩ := he
  obtain ⟨hv0, hv1⟩ := hv
  obtain ⟨hi0, hi1⟩ := hi
  obtain ⟨hs0, hs1⟩ := hs
  constructor <;> linarith

/-- C10: the insider analyzer's score is always one of {4, 5, 6, 8} and the
sentiment analyzer's score one of {3, 5, 6, 8} (both capped at 8), so the
weighted composite can never exceed 9.8. -/
theorem C10_composite_capped (pli : List Item) (mcap : Option ℚ)
    (trades : List Item) (news : List NewsItem) :
    (analyze_insider_activity trades).score ∈ ({4, 5, 6, 8} : Set ℚ)
    ∧ (analyze_sentiment news).score ∈ ({3, 5, 6, 8} : Set ℚ)
    ∧ (analyze_insider_activity trades).score ≤ 8
    ∧ (analyze_sentiment news).score ≤ 8
    ∧ (phil_fisher_ticker_analysis pli mcap trades news).score ≤ (9.8 : ℚ) := by
  have hi := insider_score_cases trades
  have hs := sentiment_score_cases news
  have hi8 : (analyze_insider_activity trades).score ≤ 8 := by
    rcases hi with h | h | h | h <;> rw [h] <;> norm_num
  have hs8 : (analyze_sentiment news).score ≤ 8 := by
    rcases hs with h | h | h | h <;> rw [h] <;> norm_num
  refine ⟨?_, ?_, hi8, hs8, ?_⟩
  · rcases hi with h | h | h | h <;> rw [h] <;>
      simp [Set.mem_insert_iff, Set.mem_singleton_iff]
  · rcases hs with h | h | h | h <;> rw [h] <;>
      simp [Set.mem_insert_iff, Set.mem_singleton_iff]
  · have hg := growth_score_mem pli
    have hm := margins_score_mem pli
    have he := mgmt_score_mem pli
    have hv := valuation_score_mem pli mcap
    have hi0 := insider_score_mem trades
    have hs0 := sentiment_score_mem news
    rw [Set.mem_Icc] at hg hm he hv hi0 hs0
    rw [phil_fisher_score_eq]
    have h98 : (9.8 : ℚ) = 49/5 := by norm_num
    rw [h98]
    obtain ⟨hg0, hg1⟩ := hg
    obtain ⟨hm0, hm1⟩ := hm
    obtain ⟨he0, he1⟩ := he
    obtain ⟨hv0, hv1⟩ := hv
    linarith

/-- C4: the revenue-growth bands are strict and mutually exclusive — for a
two-point revenue series with positive oldest value, the awarded points are 3
iff growth > 0.80, 2 iff 0.40 < growth ≤ 0.80, 1 iff 0.10 < growth ≤ 0.40 and
0 iff growth ≤ 0.10 — and the newest-first sequence [180, 100] has growth
exactly 0.80, earns +2 (not the top band +3), and drives the analyzer to
score 20/9. -/
theorem C4_revenue_band_exactness (latest oldest : ℚ) (hpos : 0 < oldest) :
    (((revenueGrowthBranch [latest, oldest]).1 = 3 ↔
        (0.80 : ℚ) < (latest - oldest) / pyabs oldest)
      ∧ ((revenueGrowthBranch [latest, oldest]).1 = 2 ↔
        (0.40 : ℚ) < (latest - oldest) / pyabs oldest
          ∧ (latest - oldest) / pyabs oldest ≤ (0.80 : ℚ))
      ∧ ((revenueGrowthBranch [latest, oldest]).1 = 1 ↔
        (0.10 : ℚ) < (latest - oldest) / pyabs oldest
          ∧ (latest - oldest) / pyabs oldest ≤ (0.40 : ℚ))
      ∧ ((revenueGrowthBranch [latest, oldest]).1 = 0 ↔
        (latest - oldest) / pyabs oldest ≤ (0.10 : ℚ)))
    ∧ ((180 : ℚ) - 100) / pyabs 100 = (0.80 : ℚ)
    ∧ revenueGrowthBranch [(180 : ℚ), 100] = (2, "Moderate multi-period revenue growth")
    ∧ (analyze_fisher_growth_quality demoRev).score = 20/9 := by
  have hpair : ∀ a b : ℚ, revenueGrowthBranch [a, b] =
      if 0 < b then
        (if (a - b) / pyabs b > 4/5 then (3, "Very strong multi-period revenue growth")
         else if (a - b) / pyabs b > 2/5 then (2, "Moderate multi-period revenue growth")
         else if (a - b) / pyabs b > 1/10 then (1, "Slight multi-period revenue growth")
         else (0, "Minimal or negative multi-period revenue growth"))
      else (0, "Oldest revenue is zero/negative; cannot compute growth.") := by
    intro a b
    simp [revenueGrowthBranch]
  refine ⟨?_, by norm_num [pyabs], ?_, ?_⟩
  · rw [hpair, if_pos hpos]
    have h08 : (0.80 : ℚ) = 4/5 := by norm_num
    have h04 : (0.40 : ℚ) = 2/5 := by norm_num
    have h01 : (0.10 : ℚ) = 1/10 := by norm_num
    rw [h08, h04, h01]
    split_ifs with h1 h2 h3
    · exact ⟨⟨fun _ => h1, fun _ => rfl⟩,
        ⟨fun h => absurd h (by decide), fun h => absurd h1 (not_lt.mpr h.2)⟩,
        ⟨fun h => absurd h (by decide),
         fun h => absurd h1 (not_lt.mpr (h.2.trans (by norm_num)))⟩,
        ⟨fun h => absurd h (by decide),
         fun h => absurd h1 (not_lt.mpr (h.trans (by norm_num)))⟩⟩
    · exact ⟨⟨fun h => absurd h (by decide), fun h => absurd h h1⟩,
        ⟨fun _ => ⟨h2, not_lt.mp h1⟩, fun _ => rfl⟩,
        ⟨fun h => absurd h (by decide), fun h => absurd h2 (not_lt.mpr h.2)⟩,
        ⟨fun h => absurd h (by decide),
         fun h => absurd h2 (not_lt.mpr (h.trans (by norm_num)))⟩⟩
    · exact ⟨⟨fun h => absurd h (by decide), fun h => absurd h h1⟩,
        ⟨fun h => absurd h (by decide), fun h => absurd h.1 h2⟩,
        ⟨fun _ => ⟨h3, not_lt.mp h2⟩, fun _ => rfl⟩,
        ⟨fun h => absurd h (by decide), fun h => absurd h3 (not_lt.mpr h)⟩⟩
    · exact ⟨⟨fun h => absurd h (by decide), fun h => absurd h h1⟩,
        ⟨fun h => absurd h (by decide), fun h => absurd h.1 h2⟩,
        ⟨fun h => absurd h (by decide), fun h => absurd h.1 h3⟩,
        ⟨fun _ => not_lt.mp h3, fun _ => rfl⟩⟩
  · rw [hpair]
    norm_num [pyabs]
  · have h1 : fieldValues "revenue" demoRev = [180, 100] := by decide
    have h2 : fieldValues "earnings_per_share" demoRev = [] := by decide
    have h3 : fieldValues "research_and_development" demoRev = [] := by decide
    have hlen : ¬(demoRev.length < 2) := by decide
    rw [analyze_fisher_growth_quality, if_neg hlen]
    simp only [h1, h2, h3]
    rw [hpair]
    norm_num [pyabs, epsGrowthBranch, rndBranch, pymin]

/-- Witness for C4 at the concrete sequence [180, 100]: growth exactly 0.80
earns +2, not +3. -/
theorem C4_revenue_band_exactness_witness :
    (revenueGrowthBranch [(180 : ℚ), 100]).1 = 2
    ∧ (analyze_fisher_growth_quality demoRev).score = 20/9 :=
  ⟨((C4_revenue_band_exactness 180 100 (by norm_num)).1.2.1).mpr
      ⟨by norm_num [pyabs], by norm_num [pyabs]⟩,
   (C4_revenue_band_exactness 180 100 (by norm_num)).2.2.2⟩

/-- C5 (amended): the growth/quality analyzer's insufficient-data guard tests
the raw number of items in the sequence, not the number of items carrying
non-null values: any list of fewer than 2 items returns score 0 with the
insufficient-data details string. (A list of ≥ 2 items of which fewer than 2
carry non-null values can still earn R&D points — see the counterexample.) -/
theorem C5_short_input_guard (items : List Item) (h : items.length < 2) :
    analyze_fisher_growth_quality items =
      { score := 0, details := "Insufficient financial data for growth/quality analysis" } := by
  rw [analyze_fisher_growth_quality, if_pos h]

/-- Witness for C5 at the empty list. -/
theorem C5_short_input_guard_witness :
    ([] : List Item).length < 2
    ∧ analyze_fisher_growth_quality [] =
        { score := 0, details := "Insufficient financial data for growth/quality analysis" } :=
  ⟨by norm_num, C5_short_input_guard [] (by norm_num)⟩

/-- C5 counterexample: a 2-item sequence in which only one item carries any
non-null value (so the claim's guard condition "fewer than 2 items with
non-null values anywhere" holds) passes the code's length-based guard and
earns the R&D band's +3 raw points, scoring 10/3 ≠ 0 with no
insufficient-data details. -/
theorem C5_counterexample :
    cexShortData.countP hasAnyValue = 1
    ∧ cexShortData.length = 2
    ∧ (analyze_fisher_growth_quality cexShortData).score = 10/3
    ∧ (analyze_fisher_growth_quality cexShortData).score ≠ 0
    ∧ (analyze_fisher_growth_quality cexShortData).details =
        "Not enough revenue data points for growth calculation.; Not enough EPS data points for growth calculation.; R&D ratio indicates significant investment in future growth" := by
  have h1 : fieldValues "revenue" cexShortData = [100] := by decide
  have h2 : fieldValues "earnings_per_share" cexShortData = [] := by decide
  have h3 : fieldValues "research_and_development" cexShortData = [10] := by decide
  have hlen : ¬(cexShortData.length < 2) := by decide
  have heval : analyze_fisher_growth_quality cexShortData =
      { score := 10/3,
        details := "Not enough revenue data points for growth calculation.; Not enough EPS data points for growth calculation.; R&D ratio indicates significant investment in future growth" } := by
    rw [analyze_fisher_growth_quality, if_neg hlen]
    simp only [h1, h2, h3]
    norm_num [revenueGrowthBranch, epsGrowthBranch, rndBranch, pymin]
    rfl
  refine ⟨by decide, by decide, ?_, ?_, ?_⟩
  · rw [heval]
  · rw [heval]
    norm_num
  · rw [heval]

/-- C6: the valuation analyzer returns score 0 with the insufficient-data
detail whenever the item list is empty or market_cap is null, regardless of
the line items; otherwise the P/E sub-check computes a ratio exactly when the
most recent non-null net income exists and is strictly positive, and emits
the "No positive net income for P/E calculation" fallback detail otherwise. -/
theorem C6_valuation_guard (items : List Item) (mcap : Option ℚ) (m : ℚ) (nis : List ℚ) :
    ((items = [] ∨ mcap = none) →
      analyze_fisher_valuation items mcap =
        { score := 0, details := "Insufficient data to perform valuation" })
    ∧ ((peBranch m nis).2 = "No positive net income for P/E calculation" ↔
        ¬ ∃ r rs, nis = r :: rs ∧ 0 < r)
    ∧ (items ≠ [] → mcap = some m →
        (analyze_fisher_valuation items mcap).details =
          String.intercalate "; "
            [(peBranch m (fieldValues "net_income" items)).2,
             (pfcfBranch m (fieldValues "free_cash_flow" items)).2]) := by
  refine ⟨?_, ?_, ?_⟩
  · rintro (rfl | rfl)
    · rcases mcap with _ | m'
      · rfl
      · rw [analyze_fisher_valuation]
        rfl
    · rfl
  · rcases nis with _ | ⟨r, rs⟩
    · simp [peBranch]
    · by_cases hr : 0 < r
      · constructor
        · intro h
          simp only [peBranch] at h
          rw [if_pos hr] at h
          split_ifs at h <;> exact absurd h (by decide)
        · intro h
          exact absurd ⟨r, rs, rfl, hr⟩ h
      · rw [peBranch, if_neg hr]
        refine ⟨fun _ => ?_, fun _ => rfl⟩
        rintro ⟨r', rs', heq, hr'⟩
        cases heq
        exact hr hr'
  · intro hne hm
    subst hm
    rw [analyze_fisher_valuation]
    rw [if_neg (by simp [List.isEmpty_iff, hne])]

/-- Witness for C6: the guard at empty items and null market cap, the
fallback detail at an empty net-income list, and the details layout for a
one-null-item list with market cap 1. -/
theorem C6_valuation_guard_witness :
    analyze_fisher_valuation [] none =
      { score := 0, details := "Insufficient data to perform valuation" }
    ∧ (peBranch 1 []).2 = "No positive net income for P/E calculation"
    ∧ (analyze_fisher_valuation [Record.null] (some 1)).details =
        String.intercalate "; "
          [(peBranch 1 (fieldValues "net_income" [Record.null])).2,
           (pfcfBranch 1 (fieldValues "free_cash_flow" [Record.null])).2] :=
  ⟨(C6_valuation_guard [] none 1 []).1 (Or.inl rfl),
   ((C6_valuation_guard [] none 1 []).2.1).mpr (by simp),
   (C6_valuation_guard [Record.null] (some 1) 1 []).2.2 (by simp) rfl⟩

/-- C7: the insider analyzer returns exactly 5 for an empty trade list or
when every trade's transaction_shares is zero or null; otherwise, with trades
classified strictly by sign, it returns the single absolute score 8 when
buys/(buys+sells) > 0.7, 6 when > 0.4 and 4 otherwise; on the trades
[+10, +10, +10, -1] the ratio is 0.75 and the score 8. -/
theorem C7_insider_characterization (trades : List Item) :
    (trades = [] → analyze_insider_activity trades =
      { score := 5, details := "No insider trades data; defaulting to neutral" })
    ∧ ((∀ t ∈ trades, _v t "transaction_shares" = none ∨ _v t "transaction_shares" = some 0) →
        (analyze_insider_activity trades).score = 5)
    ∧ (∀ buys sells : ℕ, buys = trades.countP isBuy → sells = trades.countP isSell →
        0 < buys + sells →
        (analyze_insider_activity trades).score =
          (if (buys : ℚ) / ((buys : ℚ) + (sells : ℚ)) > (0.7 : ℚ) then 8
           else if (buys : ℚ) / ((buys : ℚ) + (sells : ℚ)) > (0.4 : ℚ) then 6 else 4))
    ∧ analyze_insider_activity demoTrades =
        { score := 8, details := "Heavy insider buying" } := by
  refine ⟨?_, ?_, ?_, ?_⟩
  · rintro rfl
    rfl
  · intro hall
    have hb : trades.countP isBuy = 0 := by
      rw [List.countP_eq_zero]
      intro t ht
      rcases hall t ht with h | h <;> simp [isBuy, h]
    have hs : trades.countP isSell = 0 := by
      rw [List.countP_eq_zero]
      intro t ht
      rcases hall t ht with h | h <;> simp [isSell, h]
    rw [analyze_insider_activity]
    split
    · rfl
    · simp only [hb, hs]
      simp
  · intro buys sells hb hs hpos
    subst hb
    subst hs
    have hne : trades.isEmpty = false := by
      rcases trades with _ | ⟨t, ts⟩
      · simp at hpos
      · rfl
    have htot : ¬(trades.countP isBuy + trades.countP isSell = 0) := by omega
    have hcast : ((trades.countP isBuy + trades.countP isSell : ℕ) : ℚ) =
        (trades.countP isBuy : ℚ) + (trades.countP isSell : ℚ) := by
      push_cast
      ring
    have h07 : (0.7 : ℚ) = 7/10 := by norm_num
    have h04 : (0.4 : ℚ) = 2/5 := by norm_num
    simp only [analyze_insider_activity, hne]
    rw [if_neg (by simp), if_neg htot, hcast, h07, h04]
    split_ifs <;> rfl
  · have hb : demoTrades.countP isBuy = 3 := by decide
    have hs : demoTrades.countP isSell = 1 := by decide
    have hne : demoTrades.isEmpty = false := by decide
    rw [analyze_insider_activity]
    rw [if_neg (by simp [hne])]
    simp only [hb, hs]
    norm_num

/-- Witness for C7: the all-null-trades neutral default and the 0.75-ratio
band at the concrete trades [+10, +10, +10, -1]. -/
theorem C7_insider_characterization_witness :
    (analyze_insider_activity [Record.null]).score = 5
    ∧ (analyze_insider_activity demoTrades).score =
        (if (3 : ℚ) / ((3 : ℚ) + (1 : ℚ)) > (0.7 : ℚ) then 8
         else if (3 : ℚ) / ((3 : ℚ) + (1 : ℚ)) > (0.4 : ℚ) then 6 else 4)
    ∧ analyze_insider_activity [] =
        { score := 5, details := "No insider trades data; defaulting to neutral" } :=
  ⟨(C7_insider_characterization [Record.null]).2.1 (by intro t ht; simp at ht; simp [ht, _v]),
   (C7_insider_characterization demoTrades).2.2.1 3 1 (by decide) (by decide) (by norm_num),
   (C7_insider_characterization []).1 rfl⟩

/-- C8: the ROE sub-check awards points only when the filtered net_income and
shareholders_equity sequences are nonempty with equal lengths and the most
recent net income is strictly positive (an explicit zero-or-negative detail
otherwise); the bands are strict, so net_income 100 with equity 500 gives
roe = 0.2, which earns +2 ("Moderate ROE"), not +3, and drives the one-item
analyzer run to score 10/3. -/
theorem C8_roe_conditions (ni_values eq_values : List ℚ) :
    ((roeBranch ni_values eq_values).1 ≠ 0 →
      ∃ n ns e es, ni_values = n :: ns ∧ eq_values = e :: es
        ∧ ni_values.length = eq_values.length ∧ 0 < n)
    ∧ (∀ n ns e es, ni_values = n :: ns → eq_values = e :: es →
        ni_values.length = eq_values.length → ¬(0 < n) →
        roeBranch ni_values eq_values =
          (0, "Recent net income is zero or negative, hurting ROE"))
    ∧ roeBranch [100] [500] = (2, "Moderate ROE")
    ∧ (100 : ℚ) / 500 = (0.2 : ℚ)
    ∧ (analyze_management_efficiency_leverage demoMgmt).score = 10/3 := by
  refine ⟨?_, ?_, ?_, by norm_num, ?_⟩
  · intro h
    rcases ni_values with _ | ⟨n, ns⟩
    · exact absurd rfl h
    · rcases eq_values with _ | ⟨e, es⟩
      · exact absurd rfl h
      · simp only [roeBranch] at h
        split_ifs at h with hlen hni hb1 hb2 hb3 <;>
          first
            | exact ⟨n, ns, e, es, rfl, rfl, by simpa using hlen, hni⟩
            | exact absurd rfl h
  · intro n ns e es hn he hlen hni
    subst hn
    subst he
    simp only [roeBranch]
    rw [if_pos (by simpa using hlen), if_neg hni]
  · simp only [roeBranch]
    norm_num
  · have h1 : fieldValues "net_income" demoMgmt = [100] := by decide
    have h2 : fieldValues "shareholders_equity" demoMgmt = [500] := by decide
    have h3 : fieldValues "total_debt" demoMgmt = [] := by decide
    have h4 : fieldValues "free_cash_flow" demoMgmt = [] := by decide
    have hne : demoMgmt.isEmpty = false := by decide
    rw [analyze_management_efficiency_leverage, if_neg (by simp [hne])]
    simp only [h1, h2, h3, h4]
    norm_num [roeBranch, dteBranch, fcfConsistencyBranch, pymin]

/-- Witness for C8 at the single line item net_income 100, equity 500. -/
theorem C8_roe_conditions_witness :
    (∃ n ns e es, ([100] : List ℚ) = n :: ns ∧ ([500] : List ℚ) = e :: es
      ∧ ([100] : List ℚ).length = ([500] : List ℚ).length ∧ 0 < n)
    ∧ roeBranch [100] [500] = (2, "Moderate ROE")
    ∧ roeBranch [(-100 : ℚ)] [500] =
        (0, "Recent net income is zero or negative, hurting ROE") :=
  ⟨(C8_roe_conditions [100] [500]).1 (by norm_num [roeBranch]),
   (C8_roe_conditions [100] [500]).2.2.1,
   (C8_roe_conditions [-100] [500]).2.1 (-100) [] 500 [] rfl rfl (by norm_num)
     (by norm_num)⟩

/-- C9: the record accessor is total — Python-null records give None, dicts
give the stored value (a stored null and an absent key both give None),
attribute objects give the attribute or None — and consequently the analyzers
never fail on missing or null optional fields: on records with no non-null
field at all, the four financial analyzers degrade to score 0, the insider
analyzer to the neutral 5, and the sentiment analyzer to its no-data 5 or its
no-negative-headlines 8. -/
theorem C9_accessor_total_and_degrading :
    (∀ (name : String), _v (Record.null : Record ℚ) name = none)
    ∧ (∀ (m : List (String × Option ℚ)) (name : String),
        _v (Record.mapLike m) name = (m.lookup name).join)
    ∧ (∀ (f : String → Option ℚ) (name : String), _v (Record.attrLike f) name = f name)
    ∧ (∀ (items : List Item), (∀ r ∈ items, ∀ n, _v r n = none) →
        (analyze_fisher_growth_quality items).score = 0
        ∧ (analyze_margins_stability items).score = 0
        ∧ (analyze_management_efficiency_leverage items).score = 0
        ∧ (∀ mcap, (analyze_fisher_valuation items mcap).score = 0)
        ∧ (analyze_insider_activity items).score = 5)
    ∧ (∀ (news : List NewsItem), (∀ r ∈ news, _v r "title" = none) →
        (analyze_sentiment news).score = 5 ∨ (analyze_sentiment news).score = 8) := by
  refine ⟨fun _ => rfl, fun _ _ => rfl, fun _ _ => rfl, ?_, ?_⟩
  · intro items hnull
    have hfv : ∀ name, fieldValues name items = [] := by
      intro name
      rw [fieldValues, List.filterMap_eq_nil_iff]
      intro r hr
      exact hnull r hr name
    refine ⟨?_, ?_, ?_, ?_, ?_⟩
    · rw [analyze_fisher_growth_quality]
      split
      · rfl
      · simp only [hfv]
        norm_num [revenueGrowthBranch, epsGrowthBranch, rndBranch, pymin]
    · rw [analyze_margins_stability]
      split
      · rfl
      · simp only [hfv]
        norm_num [opMarginTrendBranch, grossMarginBranch, volatilityBranch, pymin]
    · rw [analyze_management_efficiency_leverage]
      split
      · rfl
      · simp only [hfv]
        norm_num [roeBranch, dteBranch, fcfConsistencyBranch, pymin]
    · intro mcap
      rcases mcap with _ | m
      · rfl
      · rw [analyze_fisher_valuation]
        split
        · rfl
        · simp only [hfv]
          norm_num [peBranch, pfcfBranch, pymin]
    · have hb : items.countP isBuy = 0 := by
        rw [List.countP_eq_zero]
        intro t ht
        simp [isBuy, hnull t ht "transaction_shares"]
      have hs : items.countP isSell = 0 := by
        rw [List.countP_eq_zero]
        intro t ht
        simp [isSell, hnull t ht "transaction_shares"]
      rw [analyze_insider_activity]
      split
      · rfl
      · simp only [hb, hs]
        simp
  · intro news hnull
    rcases hn : news.isEmpty with _ | _
    · right
      have hcount : news.countP isNegativeHeadline = 0 := by
        rw [List.countP_eq_zero]
        intro t ht
        simp only [isNegativeHeadline, hnull t ht]
        decide
      rw [analyze_sentiment]
      rw [if_neg (by simp [hn])]
      simp only [hcount, Nat.cast_zero]
      rw [if_neg (by push_neg; positivity), if_neg (by norm_num)]
    · left
      rw [analyze_sentiment, if_pos (by simp [hn])]

/-- Witness for C9: a list of two all-null line items and one all-null news
item exercise the degradation paths. -/
theorem C9_accessor_total_and_degrading_witness :
    ((analyze_fisher_growth_quality [Record.null, Record.null]).score = 0
      ∧ (analyze_margins_stability [Record.null, Record.null]).score = 0
      ∧ (analyze_management_efficiency_leverage [Record.null, Record.null]).score = 0
      ∧ (∀ mcap, (analyze_fisher_valuation [Record.null, Record.null] mcap).score = 0)
      ∧ (analyze_insider_activity [Record.null, Record.null]).score = 5)
    ∧ ((analyze_sentiment [Record.null]).score = 5
        ∨ (analyze_sentiment [Record.null]).score = 8) :=
  ⟨C9_accessor_total_and_degrading.2.2.2.1 [Record.null, Record.null]
      (by intro r hr n; simp at hr; simp [hr, _v]),
   C9_accessor_total_and_degrading.2.2.2.2 [Record.null]
      (by intro r hr; simp at hr; simp [hr, _v])⟩

end FisherMind
